import Mathlib

/-!
Verification of the `cohalz/tools` command-line scripts.

The TypeScript sources are shallowly embedded as Lean functions:

* timestamps (`Date.valueOf()` milliseconds) are `Int`;
* JavaScript numbers are modelled as exact rationals `ℚ`; division by
  zero (which yields `NaN`/`Infinity` in JavaScript, never a real
  number) is modelled by `Option ℚ` with `none` for that case;
* `Date | null` fields are `Option Int`, `string | null` fields are
  `Option String`;
* the network is a parameter: an API is a function from request data to
  a response, and `await`ed sequential loops become structural
  recursion (with explicit fuel where the source loop has no bound).
-/

namespace MackerelAlertStats

/-- An alert record as used by `mackerel-alert-stats.ts`: identifies a
monitor (`monitorId`, `null` for deleted monitors), carries an open
timestamp, an optional close timestamp, and a type tag. -/
structure Alert where
  monitorId : Option String
  openedAt : Int
  closedAt : Option Int
  type : String
deriving DecidableEq, Repr

/-- `Math.round(x)`: round half toward positive infinity. -/
def jsRound (x : ℚ) : Int := ⌊x + 1/2⌋

/-- `Number(x.toFixed(0))`: round to the nearest integer, ties away
from zero (ECMA `toFixed` picks the larger candidate, and negative
numbers are formatted via their absolute value). -/
def jsToFixed0 (x : ℚ) : Int := if 0 ≤ x then ⌊x + 1/2⌋ else -⌊-x + 1/2⌋

/-- JavaScript division producing a real number: `none` models the
`NaN`/`±Infinity` result of dividing by zero. -/
def jsDiv (a b : ℚ) : Option ℚ := if b = 0 then none else some (a / b)

/-- `getMTTR` from `mackerel-alert-stats.ts` (lines 65-70): `0` for an
empty list, otherwise the mean of `((closedAt || new Date()) - openedAt)
/ 60000` over all alerts, rounded with `toFixed(0)`.  `now` stands for
`new Date()`. -/
def getMTTR (now : Int) (alerts : List Alert) : ℚ :=
  if alerts.length = 0 then 0
  else
    ((jsToFixed0
      ((alerts.map fun a =>
        (((a.closedAt.getD now) - a.openedAt : ℚ) / 60000)).foldl (· + ·) 0
        / (alerts.length : ℚ)) : Int) : ℚ)

/-- `AlertStats` from `mackerel-alert-stats.ts` (lines 36-40). -/
structure AlertStats where
  count : ℕ
  mttr : ℚ
  downTime : ℚ
deriving DecidableEq, Repr

/-- `getAlertStats` from `mackerel-alert-stats.ts` (lines 102-109). -/
def getAlertStats (now : Int) (alerts : List Alert) : AlertStats :=
  let count := alerts.length
  let mttr := getMTTR now alerts
  { count := count, mttr := mttr, downTime := (count : ℚ) * mttr }

/-- `windowMin` from `mackerel-alert-stats.ts` (line 44):
`Math.round((to - from) / 60000)`. -/
def windowMin (tFrom tTo : Int) : Int := jsRound (((tTo - tFrom : Int) : ℚ) / 60000)

/-- `availability` from `mackerel-alert-stats.ts` (line 60):
`100 * (windowMin - downTime) / windowMin`.  The division is the
JavaScript one, so a zero `windowMin` yields `none` (`NaN`). -/
def availability (wMin : Int) (downTime : ℚ) : Option ℚ :=
  jsDiv (100 * ((wMin : Int) - downTime)) wMin

/-- One page of `cli.alerts.list({ includeClosed: true, cursor })`:
the alerts of the page and the opaque cursor for the next page. -/
structure Page where
  alerts : List Alert
  cursor : Option String
deriving Repr

/-- The loop body of `getAlerts` (lines 76-85), with the API as a
function from cursor to page and explicit fuel (the source `while
(true)` has no iteration bound; `none` models non-termination, and also
the crash of `res.alerts[res.alerts.length-1].openedAt` on an empty
page).  Besides the accumulated alerts it returns the number of pages
requested.  Note the source compares `currentOpenedAt >= from` BEFORE
updating `currentOpenedAt` from the page just fetched. -/
def getAlertsLoop (api : Option String → Page) (tFrom : Int) :
    ℕ → List Alert → Option String → Int → ℕ → Option (List Alert × ℕ)
  | 0, _, _, _, _ => none
  | fuel + 1, acc, cursor, currentOpenedAt, reqs =>
    let res := api cursor
    let acc' := acc ++ res.alerts
    if tFrom ≤ currentOpenedAt then some (acc', reqs + 1)
    else
      match res.alerts.getLast? with
      | none => none
      | some lastAlert =>
        getAlertsLoop api tFrom fuel acc' res.cursor lastAlert.openedAt (reqs + 1)

/-- `getAlerts` from `mackerel-alert-stats.ts` (lines 72-87): `now` is
the initial `new Date()` value of `currentOpenedAt`, the first request
carries an `undefined` cursor. -/
def getAlerts (api : Option String → Page) (now tFrom : Int) (fuel : ℕ) :
    Option (List Alert × ℕ) :=
  getAlertsLoop api tFrom fuel [] none now 0

/-- `Object.groupBy(alerts, a => a.monitorId)` viewed extensionally:
the group of a key is the sublist of alerts carrying that key. -/
def groupByMonitor (alerts : List Alert) (key : Option String) : List Alert :=
  alerts.filter fun a => decide (a.monitorId = key)

/-- The pure part of `getAlertsByMonitor` (lines 89-96), taking the
already-fetched alert list as a parameter: the current-window groups
(`openedAt ∈ [from, to)`) and the previous-window groups
(`openedAt ∈ [prev, from)`). -/
def getAlertsByMonitor (alerts : List Alert) (tPrev tFrom tTo : Int) :
    (Option String → List Alert) × (Option String → List Alert) :=
  (groupByMonitor (alerts.filter fun a =>
      decide (tFrom ≤ a.openedAt) && decide (a.openedAt < tTo)),
   groupByMonitor (alerts.filter fun a =>
      decide (tPrev ≤ a.openedAt) && decide (a.openedAt < tFrom)))

/-- One entry of the report loop (lines 51-63): given a
`(monitorId, alerts)` pair from `Object.entries` of the grouping, the
loop `continue`s (emits nothing, performs no monitor-name lookup) when
the first alert's type is `"check"` or its `monitorId` is `null`;
otherwise it looks the monitor name up and prints one report line,
which we record by the entry's key.  The `none` result for an empty
group is unreachable: `Object.groupBy` produces no empty groups. -/
def processEntry (entry : String × List Alert) : Option String :=
  match entry.2.head? with
  | none => none
  | some a0 =>
    if a0.type = "check" then none
    else if a0.monitorId = none then none
    else some entry.1

/-- The report loop over all grouped entries: the keys of the monitors
for which a name lookup is performed and a report line is printed. -/
def reportLoop (groups : List (String × List Alert)) : List String :=
  groups.filterMap processEntry

end MackerelAlertStats

/-- `sub` occurs in `s` as a contiguous substring — the model of
JavaScript `String.prototype.includes`. -/
def strContains (s sub : String) : Bool :=
  (List.range (s.toList.length + 1)).any fun i =>
    sub.toList.isPrefixOf (s.toList.drop i)

/-- Splits a character list at every occurrence of `sep`; `acc` holds
the current chunk, reversed.  Structural model of JavaScript
`String.prototype.split` with a one-character separator. -/
def splitOnCharAux (sep : Char) : List Char → List Char → List (List Char)
  | [], acc => [acc.reverse]
  | c :: cs, acc =>
    if c = sep then acc.reverse :: splitOnCharAux sep cs []
    else splitOnCharAux sep cs (c :: acc)

/-- JavaScript `s.split(sep)` for a single-character separator (always
yields at least one, possibly empty, chunk). -/
def jsSplit (s : String) (sep : Char) : List String :=
  (splitOnCharAux sep s.toList []).map String.mk

/-- JavaScript `s.trim()`: strip leading and trailing whitespace. -/
def jsTrim (s : String) : String :=
  String.mk (((s.toList.dropWhile Char.isWhitespace).reverse.dropWhile
    Char.isWhitespace).reverse)

/-- `scope.split(":")[0]`: the part of a scope before the first colon
(`split` never returns an empty array, so index 0 is always present). -/
def servicePart (scope : String) : String := (jsSplit scope ':').headD ""

namespace ListMonitors

/-- The `scopes` attribute of a monitor in
`src/mackerel/list_monitors.ts`: either a plain array of scope strings
or an `{ include, exclude? }` object. -/
inductive Scopes where
  | arr (l : List String)
  | obj (inc : List String) (exc : Option (List String))
deriving DecidableEq, Repr

/-- A monitor as consumed by `src/mackerel/list_monitors.ts`; `scopes`
is `none` when the attribute is absent (`'scopes' in monitor` false). -/
structure Monitor where
  id : String
  type : String
  name : String
  isMuted : Bool
  scopes : Option Scopes
deriving DecidableEq, Repr

/-- `scopesToIncludeArray` from `list_monitors.ts` (lines 25-36). -/
def scopesToIncludeArray : Option Scopes → List String
  | none => []
  | some (.arr l) => l
  | some (.obj inc _) => inc

/-- `scopesToExcludeArray` from `list_monitors.ts` (lines 41-52). -/
def scopesToExcludeArray : Option Scopes → List String
  | none => []
  | some (.arr _) => []
  | some (.obj _ exc) => exc.getD []

/-- `filterByService` from `list_monitors.ts` (lines 54-93): splits the
comma-separated service argument, matches name-typed monitors
(`external`, `expression`, `anomalyDetection`, `service`) by substring
of the name, keeps scope-less monitors unless `excludeAllServices`,
and otherwise matches some scope's part before the colon against the
service list. -/
def filterByService (monitors : List Monitor) (service : String)
    (excludeAllServices : Bool) : List Monitor :=
  let services := (jsSplit service ',').map jsTrim
  monitors.filter fun monitor =>
    if monitor.type = "external" ∨ monitor.type = "expression" ∨
        monitor.type = "anomalyDetection" ∨ monitor.type = "service" then
      services.any fun svc => strContains monitor.name svc
    else if monitor.scopes.isNone then
      !excludeAllServices
    else
      let scopesList := scopesToIncludeArray monitor.scopes
      if excludeAllServices ∧ scopesList.length = 0 then false
      else if scopesList.length = 0 then true
      else scopesList.any fun scope => services.contains (servicePart scope)

end ListMonitors

namespace ListMonitorsV0

/-- A monitor as consumed by the earlier `list_monitors` variant (the
unnamed source `part_000`): `scopes` and `excludeScopes` are optional
plain arrays. -/
structure Monitor where
  id : String
  type : String
  name : String
  isMute : Bool
  scopes : Option (List String)
  excludeScopes : Option (List String)
deriving DecidableEq, Repr

/-- `filterByService` from `part_000` (lines 43-82): matches name-typed
monitors by substring of the name against the single service argument;
drops a monitor when some `excludeScopes` entry names the service;
drops scope-less monitors when `excludeAllServices`, keeps them
otherwise; and otherwise matches some scope's part before the colon
against the service.  A missing array and an empty array behave alike
(`monitor.excludeScopes && monitor.excludeScopes.length > 0`). -/
def filterByService (monitors : List Monitor) (service : String)
    (excludeAllServices : Bool) : List Monitor :=
  monitors.filter fun monitor =>
    if monitor.type = "external" ∨ monitor.type = "expression" ∨
        monitor.type = "anomalyDetection" ∨ monitor.type = "service" then
      strContains monitor.name service
    else
      let excl := monitor.excludeScopes.getD []
      if 0 < excl.length ∧ excl.any fun scope => servicePart scope = service then
        false
      else if excludeAllServices ∧ (monitor.scopes.getD []).length = 0 then false
      else if (monitor.scopes.getD []).length = 0 then true
      else (monitor.scopes.getD []).any fun scope => servicePart scope = service

end ListMonitorsV0

namespace Github

/-- An HTTP response to the membership `PUT`: `ok` is `response.ok`
(status in the 2xx range), `body` the response text, `role` the field
read from the JSON body on success. -/
structure Response where
  ok : Bool
  status : ℕ
  body : String
  role : String
deriving DecidableEq, Repr

/-- Observable events of a maintainer-script run, in order:
`put team user` records that the mutating
`PUT /orgs/{org}/teams/{team}/memberships/{user}` request was issued;
`success` / `httpError` / `exn` record the console outcome for one team
(an `httpError` logs the response status and body); `log` records a
plain console line (a team name or slug); `printJson` records the
`JSON.stringify(teams)` dump of the normal mode. -/
inductive Ev where
  | put (team user : String)
  | success (role : String)
  | httpError (status : ℕ) (body : String)
  | exn (msg : String)
  | log (s : String)
  | printJson
deriving DecidableEq, Repr

/-- The outcome of one `fetch`: `.inl msg` models a thrown exception
(caught by the loop's `try`/`catch`), `.inr r` a delivered response. -/
abbrev Api := String → Sum String Response

end Github

namespace GithubRest

/-- A team as returned by the REST `GET /orgs/{org}/teams` call in
`src/github/make_team_maintainer.ts`. -/
structure Team where
  name : String
  slug : String
deriving DecidableEq, Repr

/-- `setMaintainer` from `make_team_maintainer.ts` (lines 43-84) as a
trace of events.  The per-team key is `team.name` (the source assigns
`const teamSlug = team.name`).  A non-2xx response logs the status and
body and `continue`s; a thrown fetch error is caught and logged; in
either case the loop proceeds to the next team — the body contains no
`Deno.exit` and no `throw` escapes the `catch`. -/
def setMaintainer (api : Github.Api) (username : String) :
    List Team → List Github.Ev
  | [] => []
  | team :: rest =>
    let key := team.name
    (match api key with
     | .inl msg => [.put key username, .exn msg]
     | .inr r =>
       if r.ok then [.put key username, .success r.role]
       else [.put key username, .httpError r.status r.body])
    ++ setMaintainer api username rest

/-- The argument parsing of `main` (lines 92-101): `--dry-run` as the
first argument shifts `org` and `username` to positions 1 and 2.
Missing positions are `none`. -/
def parseMainArgs (args : List String) : Bool × Option String × Option String :=
  if args.headD "" = "--dry-run" then (true, args[1]?, args[2]?)
  else (false, args[0]?, args[1]?)

/-- The decision part of `main` (lines 103-133), with the fetched team
list and the membership API as parameters: `none` models `Deno.exit(1)`
for a missing/empty `org` or `username`; in dry-run mode the run only
prints the team names; otherwise it prints the JSON dump and runs
`setMaintainer`. -/
def mainRun (args : List String) (api : Github.Api) (teams : List Team) :
    Option (List Github.Ev) :=
  let (dryRun, org?, username?) := parseMainArgs args
  match org?, username? with
  | some org, some username =>
    if org = "" ∨ username = "" then none
    else if dryRun then some (teams.map fun t => .log t.name)
    else some (.printJson :: setMaintainer api username teams)
  | _, _ => none

end GithubRest

namespace GithubGql

/-- A team member fetched through GraphQL (`part_001`). -/
structure TeamMember where
  login : String
deriving DecidableEq, Repr

/-- A team as assembled by `getAllTeamsWithMembers` in `part_001`. -/
structure Team where
  name : String
  slug : String
  id : String
  members : List TeamMember
deriving DecidableEq, Repr

/-- `filterTeamsByUser` from `part_001` (lines 241-259): the teams
whose member list contains the user's login. -/
def filterTeamsByUser (teams : List Team) (username : String) : List Team :=
  teams.filter fun team => team.members.any fun member => member.login = username

/-- `setMaintainer` from `part_001` (lines 264-305) as a trace of
events; identical to the REST variant except that the per-team key is
`team.slug`.  A non-2xx response logs the status and body and
`continue`s; a thrown fetch error is caught and logged; the loop always
proceeds to the next team. -/
def setMaintainer (api : Github.Api) (username : String) :
    List Team → List Github.Ev
  | [] => []
  | team :: rest =>
    let key := team.slug
    (match api key with
     | .inl msg => [.put key username, .exn msg]
     | .inr r =>
       if r.ok then [.put key username, .success r.role]
       else [.put key username, .httpError r.status r.body])
    ++ setMaintainer api username rest

/-- The decision part of `main` in `part_001` (lines 307-363), with the
fetched team list and the membership API as parameters: parses
`[--dry-run] <org> <username>`, filters the teams by the user, and in
dry-run mode only prints the matching team slugs; otherwise it runs
`setMaintainer` on them. -/
def mainRun (args : List String) (api : Github.Api) (allTeams : List Team) :
    Option (List Github.Ev) :=
  let (dryRun, org?, username?) := GithubRest.parseMainArgs args
  match org?, username? with
  | some org, some username =>
    if org = "" ∨ username = "" then none
    else
      let teamsWithUser := filterTeamsByUser allTeams username
      if dryRun then some (teamsWithUser.map fun t => .log t.slug)
      else some (setMaintainer api username teamsWithUser)
  | _, _ => none

end GithubGql

namespace MackerelAlertStats

/-- A mocked alert API for exercising `getAlerts`: the first page
(cursor `undefined`) holds one alert opened at `t = 90` and hands out a
cursor for a second page holding one alert opened at `t = 10`. -/
def apiC1 : Option String → Page
  | none =>
    { alerts := [{ monitorId := some "m", openedAt := 90, closedAt := none, type := "host" }],
      cursor := some "c1" }
  | some _ =>
    { alerts := [{ monitorId := some "m", openedAt := 10, closedAt := none, type := "host" }],
      cursor := none }

/-- Five alerts of one monitor, each four minutes long, all opened
inside the ten-minute window `[0, 600000)`. -/
def alertsC10 : List Alert :=
  [⟨some "m1", 0, some 240000, "host"⟩,
   ⟨some "m1", 60000, some 300000, "host"⟩,
   ⟨some "m1", 120000, some 360000, "host"⟩,
   ⟨some "m1", 180000, some 420000, "host"⟩,
   ⟨some "m1", 240000, some 480000, "host"⟩]

end MackerelAlertStats

/-- A monitor of the `part_000` variant whose scopes name service
`svcA` but whose `excludeScopes` also name `svcA`. -/
def monitorC6 : ListMonitorsV0.Monitor :=
  { id := "1", type := "host", name := "cpu high", isMute := false,
    scopes := some ["svcA:role"], excludeScopes := some ["svcA:other"] }

/-- A `list_monitors.ts` monitor with scopes `["svcA:role"]`. -/
def monitorC6a : ListMonitors.Monitor :=
  { id := "1", type := "host", name := "cpu high", isMuted := false,
    scopes := some (.arr ["svcA:role"]) }

/-- A `part_000` monitor with scopes `["svcA:role"]` and no
`excludeScopes`. -/
def monitorC6b : ListMonitorsV0.Monitor :=
  { id := "1", type := "host", name := "cpu high", isMute := false,
    scopes := some ["svcA:role"], excludeScopes := none }

/-- A scope-less `part_000` monitor whose `excludeScopes` name service
`svcX`. -/
def monitorC7 : ListMonitorsV0.Monitor :=
  { id := "2", type := "host", name := "disk", isMute := false,
    scopes := none, excludeScopes := some ["svcX:r"] }

/-- A `list_monitors.ts` monitor with the `scopes` attribute absent. -/
def monitorC7a : ListMonitors.Monitor :=
  { id := "3", type := "host", name := "mem", isMuted := false, scopes := none }

/-- A `part_000` monitor with neither `scopes` nor `excludeScopes`. -/
def monitorC7b : ListMonitorsV0.Monitor :=
  { id := "3", type := "host", name := "mem", isMute := false,
    scopes := none, excludeScopes := none }

/-- A membership API that rejects team `alpha` with `403 forbidden`
and accepts every other team. -/
def apiC8 : Github.Api := fun k =>
  if k = "alpha" then Sum.inr { ok := false, status := 403, body := "forbidden", role := "" }
  else Sum.inr { ok := true, status := 200, body := "{}", role := "maintainer" }

/-- The team whose membership `PUT` fails in the C8 witness. -/
def teamC8 : GithubGql.Team := { name := "Alpha", slug := "alpha", id := "T1", members := [⟨"u"⟩] }

/-- A team whose membership `PUT` succeeds in the C8 witness. -/
def teamC8b : GithubGql.Team := { name := "Beta", slug := "beta", id := "T2", members := [⟨"u"⟩] }

/-- A single REST team for the C9 witness. -/
def teamC9 : GithubRest.Team := { name := "Alpha", slug := "alpha" }

namespace MackerelAlertStats

/-- Helper: folding `(+)` over a list whose members are all `c` adds
`length * c` to the accumulator. -/
theorem foldl_add_constant (c : ℚ) :
    ∀ (l : List ℚ), (∀ x ∈ l, x = c) →
      ∀ acc : ℚ, l.foldl (· + ·) acc = acc + l.length * c := by
  intro l
  induction l with
  | nil => intro _ acc; simp
  | cons x xs ih =>
    intro hx acc
    have hxc : x = c := hx x (by simp)
    have hxs : ∀ y ∈ xs, y = c := fun y hy => hx y (by simp [hy])
    simp [List.foldl_cons, ih hxs, hxc]
    ring

end MackerelAlertStats

/-- C1: the paginated fetch does NOT keep requesting pages until the
oldest fetched alert reaches the lower bound.  `getAlerts` compares
`currentOpenedAt >= from` before ever updating `currentOpenedAt` from a
fetched page, and `currentOpenedAt` starts as `new Date()`; so with
`now = 100` and bound `from = 50` (any run whose bound lies in the
past) the loop breaks after the very first page: exactly one request is
made, every returned alert is strictly newer than the bound, and the
available second page (cursor `"c1"`) is never requested. -/
theorem alertStats_getAlerts_stops_after_first_page :
    MackerelAlertStats.getAlerts MackerelAlertStats.apiC1 100 50 5 =
      some ([{ monitorId := some "m", openedAt := 90, closedAt := none,
               type := "host" }], 1) ∧
    ((([({ monitorId := some "m", openedAt := 90, closedAt := none,
           type := "host" } : MackerelAlertStats.Alert)]).all
      fun a => decide (50 < a.openedAt)) = true) ∧
    (MackerelAlertStats.apiC1 none).cursor = some "c1" := by decide

/-- C2: with `prev = 2*from - to`, every fetched alert whose `openedAt`
lies in `[prev, to)` lands in exactly one of the current-window group
(`[from, to)`) and the previous-window group (`[prev, from)`) of its
own monitor key, and the two windows have equal length. -/
theorem alertStats_window_partition (tFrom tTo : Int) (h : tFrom < tTo)
    (alerts : List MackerelAlertStats.Alert) (a : MackerelAlertStats.Alert)
    (ha : a ∈ alerts) (h1 : 2 * tFrom - tTo ≤ a.openedAt) (h2 : a.openedAt < tTo) :
    ((a ∈ (MackerelAlertStats.getAlertsByMonitor alerts (2 * tFrom - tTo) tFrom tTo).1 a.monitorId ∧
      a ∉ (MackerelAlertStats.getAlertsByMonitor alerts (2 * tFrom - tTo) tFrom tTo).2 a.monitorId) ∨
     (a ∉ (MackerelAlertStats.getAlertsByMonitor alerts (2 * tFrom - tTo) tFrom tTo).1 a.monitorId ∧
      a ∈ (MackerelAlertStats.getAlertsByMonitor alerts (2 * tFrom - tTo) tFrom tTo).2 a.monitorId)) ∧
    tTo - tFrom = tFrom - (2 * tFrom - tTo) := by
  simp [MackerelAlertStats.getAlertsByMonitor, MackerelAlertStats.groupByMonitor,
    List.mem_filter, ha]
  omega

/-- Witness for C2 at `from = 0`, `to = 60000` and an alert opened at
`t = 10`: it lies in the current-window group and not in the
previous-window group. -/
theorem alertStats_window_partition_witness :
    (0 : Int) < 60000 ∧
    ((⟨some "m", 10, none, "host"⟩ : MackerelAlertStats.Alert) ∈
      (MackerelAlertStats.getAlertsByMonitor [⟨some "m", 10, none, "host"⟩]
        (2 * 0 - 60000) 0 60000).1 (some "m") ∧
     (⟨some "m", 10, none, "host"⟩ : MackerelAlertStats.Alert) ∉
      (MackerelAlertStats.getAlertsByMonitor [⟨some "m", 10, none, "host"⟩]
        (2 * 0 - 60000) 0 60000).2 (some "m")) := by
  have := alertStats_window_partition 0 60000 (by norm_num)
    [⟨some "m", 10, none, "host"⟩] ⟨some "m", 10, none, "host"⟩
    (by simp) (by norm_num) (by norm_num)
  rcases this with ⟨hx | hx, -⟩
  · exact ⟨by norm_num, hx⟩
  · exact absurd hx.2 (by decide)

/-- C3 counterexample: the time range `[0, 10000)` is valid
(`from < to`) and has zero downtime, yet `windowMin` rounds to `0` and
the availability is the JavaScript `0/0` — `NaN`, modelled `none` — and
not `100.0`. -/
theorem alertStats_availability_nan_on_subminute_window :
    (0 : Int) < 10000 ∧
    MackerelAlertStats.windowMin 0 10000 = 0 ∧
    MackerelAlertStats.availability (MackerelAlertStats.windowMin 0 10000) 0 = none := by
  have h : MackerelAlertStats.windowMin 0 10000 = 0 := by
    rw [MackerelAlertStats.windowMin, MackerelAlertStats.jsRound]; norm_num
  exact ⟨by norm_num, h,
    by rw [h]; simp [MackerelAlertStats.availability, MackerelAlertStats.jsDiv]⟩

/-- C3 (amended): for every valid time range whose `windowMin =
round((to - from)/60000)` is nonzero, zero downtime gives availability
exactly `100.0`. -/
theorem alertStats_availability_zero_downtime (tFrom tTo : Int)
    (h1 : tFrom < tTo) (h2 : MackerelAlertStats.windowMin tFrom tTo ≠ 0) :
    MackerelAlertStats.availability (MackerelAlertStats.windowMin tFrom tTo) 0 =
      some 100 := by
  have hw : ((MackerelAlertStats.windowMin tFrom tTo : Int) : ℚ) ≠ 0 := by
    exact_mod_cast h2
  rw [MackerelAlertStats.availability, MackerelAlertStats.jsDiv, if_neg hw]
  congr 1
  field_simp

/-- Witness for C3 at the one-minute range `[0, 60000)`. -/
theorem alertStats_availability_zero_downtime_witness :
    (0 : Int) < 60000 ∧
    MackerelAlertStats.windowMin 0 60000 ≠ 0 ∧
    MackerelAlertStats.availability (MackerelAlertStats.windowMin 0 60000) 0 =
      some 100 :=
  ⟨by norm_num,
   by rw [MackerelAlertStats.windowMin, MackerelAlertStats.jsRound]; norm_num,
   alertStats_availability_zero_downtime 0 60000 (by norm_num)
     (by rw [MackerelAlertStats.windowMin, MackerelAlertStats.jsRound]; norm_num)⟩

/-- C4: for a non-empty alert list in which every alert closes exactly
`k` minutes (`60000 * k` milliseconds) after it opened, `getMTTR`
returns exactly `k`. -/
theorem alertStats_getMTTR_constant_duration (now : Int) (k : ℕ)
    (alerts : List MackerelAlertStats.Alert) (hne : alerts ≠ [])
    (hall : ∀ a ∈ alerts, a.closedAt = some (a.openedAt + 60000 * k)) :
    MackerelAlertStats.getMTTR now alerts = k := by
  have hlen : alerts.length ≠ 0 := fun h => hne (List.length_eq_zero.mp h)
  have hmap : ∀ x ∈ alerts.map (fun a =>
      (((a.closedAt.getD now) - a.openedAt : ℚ) / 60000)), x = (k : ℚ) := by
    intro x hx
    rcases List.mem_map.mp hx with ⟨a, ha, rfl⟩
    rw [hall a ha]
    field_simp
  rw [MackerelAlertStats.getMTTR, if_neg hlen]
  rw [MackerelAlertStats.foldl_add_constant (k : ℚ) _ hmap 0, List.length_map]
  rw [zero_add, mul_comm, mul_div_assoc, div_self (by exact_mod_cast hlen), mul_one]
  have hfloor : MackerelAlertStats.jsToFixed0 (k : ℚ) = k := by
    rw [MackerelAlertStats.jsToFixed0, if_pos (by positivity)]
    rw [show ((k : ℚ) + 1/2) = 1/2 + ((k : ℕ) : ℚ) by ring]
    rw [Int.floor_add_nat]
    norm_num
  rw [hfloor]
  norm_cast

/-- Witness for C4: one alert open for exactly three minutes gives
MTTR `3`. -/
theorem alertStats_getMTTR_constant_duration_witness :
    (([⟨some "m", 0, some 180000, "host"⟩] : List MackerelAlertStats.Alert) ≠ []) ∧
    (([⟨some "m", 0, some 180000, "host"⟩] : List MackerelAlertStats.Alert).all
      fun a => decide (a.closedAt = some (a.openedAt + 60000 * 3))) = true ∧
    MackerelAlertStats.getMTTR 0 [⟨some "m", 0, some 180000, "host"⟩] = 3 :=
  ⟨by decide, by decide,
   alertStats_getMTTR_constant_duration 0 3 [⟨some "m", 0, some 180000, "host"⟩]
     (by decide) (by decide)⟩

/-- C5: a grouped entry whose alerts all have type `"check"`, or all
have a `null` `monitorId` (a deleted monitor), is skipped by the report
loop: no name lookup is performed and no report line is emitted for it
(`processEntry` yields `none`), while every other entry of the loop is
still processed. -/
theorem alertStats_report_loop_skips
    (gs1 gs2 : List (String × List MackerelAlertStats.Alert)) (mid : String)
    (alerts : List MackerelAlertStats.Alert) (hne : alerts ≠ [])
    (h : (∀ a ∈ alerts, a.type = "check") ∨ (∀ a ∈ alerts, a.monitorId = none)) :
    MackerelAlertStats.processEntry (mid, alerts) = none ∧
    MackerelAlertStats.reportLoop (gs1 ++ (mid, alerts) :: gs2) =
      MackerelAlertStats.reportLoop gs1 ++ MackerelAlertStats.reportLoop gs2 := by
  obtain ⟨a0, rest, rfl⟩ : ∃ a0 rest, alerts = a0 :: rest := by
    cases alerts with
    | nil => exact absurd rfl hne
    | cons x xs => exact ⟨x, xs, rfl⟩
  have hnone : MackerelAlertStats.processEntry (mid, a0 :: rest) = none := by
    rcases h with h | h
    · simp [MackerelAlertStats.processEntry, h a0 (by simp)]
    · simp [MackerelAlertStats.processEntry, h a0 (by simp)]
  refine ⟨hnone, ?_⟩
  simp [MackerelAlertStats.reportLoop, List.filterMap_append, List.filterMap_cons, hnone]

/-- Witness for C5: a check-monitor group between two host-monitor
groups contributes nothing to the report. -/
theorem alertStats_report_loop_skips_witness :
    (([⟨some "m1", 0, none, "check"⟩] : List MackerelAlertStats.Alert) ≠ []) ∧
    (([⟨some "m1", 0, none, "check"⟩] : List MackerelAlertStats.Alert).all
      fun a => decide (a.type = "check")) = true ∧
    (MackerelAlertStats.processEntry ("m1", [⟨some "m1", 0, none, "check"⟩]) = none ∧
     MackerelAlertStats.reportLoop ([("k", [⟨some "k", 0, none, "host"⟩])] ++
        ("m1", [⟨some "m1", 0, none, "check"⟩]) :: [("j", [⟨some "j", 5, none, "host"⟩])]) =
       MackerelAlertStats.reportLoop [("k", [⟨some "k", 0, none, "host"⟩])] ++
       MackerelAlertStats.reportLoop [("j", [⟨some "j", 5, none, "host"⟩])]) :=
  ⟨by decide, by decide,
   alertStats_report_loop_skips [("k", [⟨some "k", 0, none, "host"⟩])]
     [("j", [⟨some "j", 5, none, "host"⟩])] "m1" [⟨some "m1", 0, none, "check"⟩]
     (by decide) (Or.inl (by decide))⟩

/-- C10: availability is not clamped.  For five four-minute alerts of
one monitor inside the ten-minute window `[0, 600000)`, `downTime =
count * mttr = 20` exceeds `windowMin = 10` and the availability is
`-100`, which is negative. -/
theorem alertStats_availability_negative :
    (MackerelAlertStats.getAlertStats 0 MackerelAlertStats.alertsC10).downTime = 20 ∧
    MackerelAlertStats.windowMin 0 600000 = 10 ∧
    MackerelAlertStats.availability (MackerelAlertStats.windowMin 0 600000)
      (MackerelAlertStats.getAlertStats 0 MackerelAlertStats.alertsC10).downTime =
      some (-100) ∧
    ((-100 : ℚ) < 0) := by
  have hw : MackerelAlertStats.windowMin 0 600000 = 10 := by
    rw [MackerelAlertStats.windowMin, MackerelAlertStats.jsRound]; norm_num
  have hd : (MackerelAlertStats.getAlertStats 0 MackerelAlertStats.alertsC10).downTime = 20 := by
    norm_num [MackerelAlertStats.getAlertStats, MackerelAlertStats.getMTTR,
      MackerelAlertStats.alertsC10, MackerelAlertStats.jsToFixed0]
  refine ⟨hd, hw, ?_, by norm_num⟩
  rw [hw, hd]
  norm_num [MackerelAlertStats.availability, MackerelAlertStats.jsDiv]

/-- C6 counterexample: `monitorC6` has a non-name-matched type and
scopes `["svcA:role"]`, yet the `part_000` `filterByService` EXCLUDES
it when filtering by `"svcA"`, because its `excludeScopes` also name
service `svcA` and that check runs first. -/
theorem filterByService_excludeScopes_overrides_scope_match :
    monitorC6.type ≠ "external" ∧ monitorC6.type ≠ "expression" ∧
    monitorC6.type ≠ "anomalyDetection" ∧ monitorC6.type ≠ "service" ∧
    monitorC6.scopes = some ["svcA:role"] ∧
    ListMonitorsV0.filterByService [monitorC6] "svcA" false = [] := by decide

/-- C6 (amended): a monitor of non-name-matched type with scopes
`["svcA:role"]` is kept by `filterByService` under service filter
`"svcA"` and dropped under `"svcB"`, for any `excludeAllServices`; in
the `list_monitors.ts` variant unconditionally, in the `part_000`
variant provided no `excludeScopes` entry names service `svcA`. -/
theorem filterByService_scope_match :
    (∀ (m : ListMonitors.Monitor) (eas : Bool) (ms : List ListMonitors.Monitor),
      m.type ∉ (["external", "expression", "anomalyDetection", "service"] : List String) →
      m.scopes = some (.arr ["svcA:role"]) →
      m ∈ ms →
      m ∈ ListMonitors.filterByService ms "svcA" eas ∧
      m ∉ ListMonitors.filterByService ms "svcB" eas) ∧
    (∀ (m : ListMonitorsV0.Monitor) (eas : Bool) (ms : List ListMonitorsV0.Monitor),
      m.type ∉ (["external", "expression", "anomalyDetection", "service"] : List String) →
      m.scopes = some ["svcA:role"] →
      (∀ s ∈ m.excludeScopes.getD [], servicePart s ≠ "svcA") →
      m ∈ ms →
      m ∈ ListMonitorsV0.filterByService ms "svcA" eas ∧
      m ∉ ListMonitorsV0.filterByService ms "svcB" eas) := by
  constructor
  · intro m eas ms htype hscopes hm
    simp only [List.mem_cons, List.not_mem_nil, or_false, not_or] at htype
    obtain ⟨h1, h2, h3, h4⟩ := htype
    constructor
    · simp [ListMonitors.filterByService, List.mem_filter, hm, h1, h2, h3, h4, hscopes,
        ListMonitors.scopesToIncludeArray]
      decide
    · simp [ListMonitors.filterByService, List.mem_filter, hm, h1, h2, h3, h4, hscopes,
        ListMonitors.scopesToIncludeArray]
      decide
  · intro m eas ms htype hscopes hexc hm
    simp only [List.mem_cons, List.not_mem_nil, or_false, not_or] at htype
    obtain ⟨h1, h2, h3, h4⟩ := htype
    constructor
    · simp [ListMonitorsV0.filterByService, List.mem_filter, hm, h1, h2, h3, h4, hscopes] at hexc ⊢
      exact ⟨Or.inr hexc, by decide⟩
    · simp [ListMonitorsV0.filterByService, List.mem_filter, hm, h1, h2, h3, h4, hscopes]
      intro _
      decide

/-- Witness for C6 at concrete monitors of both variants. -/
theorem filterByService_scope_match_witness :
    (monitorC6a ∈ ListMonitors.filterByService [monitorC6a] "svcA" false ∧
     monitorC6a ∉ ListMonitors.filterByService [monitorC6a] "svcB" false) ∧
    (monitorC6b ∈ ListMonitorsV0.filterByService [monitorC6b] "svcA" false ∧
     monitorC6b ∉ ListMonitorsV0.filterByService [monitorC6b] "svcB" false) :=
  ⟨filterByService_scope_match.1 monitorC6a false [monitorC6a] (by decide) rfl (by simp),
   filterByService_scope_match.2 monitorC6b false [monitorC6b] (by decide) rfl
     (by decide) (by simp)⟩

/-- C7 counterexample: `monitorC7` has no `scopes` attribute, yet with
`excludeAllServices = false` the `part_000` `filterByService` DROPS it
under service filter `"svcX"`, because its `excludeScopes` name
`svcX`. -/
theorem filterByService_excludeScopes_drops_scopeless_monitor :
    monitorC7.type ≠ "external" ∧ monitorC7.type ≠ "expression" ∧
    monitorC7.type ≠ "anomalyDetection" ∧ monitorC7.type ≠ "service" ∧
    monitorC7.scopes = none ∧
    ListMonitorsV0.filterByService [monitorC7] "svcX" false = [] := by decide

/-- C7 (amended): for monitors of non-name-matched type whose scopes
are absent or an empty list, `excludeAllServices = true` always drops
them (both variants, any service filter); with `excludeAllServices =
false` they are included — unconditionally in `list_monitors.ts`, and
in the `part_000` variant provided no `excludeScopes` entry names the
filtered service. -/
theorem filterByService_excludeAllServices :
    (∀ (m : ListMonitors.Monitor) (ms : List ListMonitors.Monitor) (service : String),
      m.type ∉ (["external", "expression", "anomalyDetection", "service"] : List String) →
      (m.scopes = none ∨ m.scopes = some (.arr [])) →
      m ∉ ListMonitors.filterByService ms service true ∧
      (m ∈ ms → m ∈ ListMonitors.filterByService ms service false)) ∧
    (∀ (m : ListMonitorsV0.Monitor) (ms : List ListMonitorsV0.Monitor) (service : String),
      m.type ∉ (["external", "expression", "anomalyDetection", "service"] : List String) →
      (m.scopes = none ∨ m.scopes = some []) →
      m ∉ ListMonitorsV0.filterByService ms service true ∧
      ((∀ s ∈ m.excludeScopes.getD [], servicePart s ≠ service) → m ∈ ms →
        m ∈ ListMonitorsV0.filterByService ms service false)) := by
  constructor
  · intro m ms service htype hscopes
    simp only [List.mem_cons, List.not_mem_nil, or_false, not_or] at htype
    obtain ⟨h1, h2, h3, h4⟩ := htype
    rcases hscopes with h | h
    · constructor
      · simp [ListMonitors.filterByService, List.mem_filter, h1, h2, h3, h4, h,
          ListMonitors.scopesToIncludeArray]
      · intro hm
        simp [ListMonitors.filterByService, List.mem_filter, hm, h1, h2, h3, h4, h,
          ListMonitors.scopesToIncludeArray]
    · constructor
      · simp [ListMonitors.filterByService, List.mem_filter, h1, h2, h3, h4, h,
          ListMonitors.scopesToIncludeArray]
      · intro hm
        simp [ListMonitors.filterByService, List.mem_filter, hm, h1, h2, h3, h4, h,
          ListMonitors.scopesToIncludeArray]
  · intro m ms service htype hscopes
    simp only [List.mem_cons, List.not_mem_nil, or_false, not_or] at htype
    obtain ⟨h1, h2, h3, h4⟩ := htype
    constructor
    · rcases hscopes with h | h
      · simp [ListMonitorsV0.filterByService, List.mem_filter, h1, h2, h3, h4, h]
      · simp [ListMonitorsV0.filterByService, List.mem_filter, h1, h2, h3, h4, h]
    · intro hexc hm
      rcases hscopes with h | h
      · simp [ListMonitorsV0.filterByService, List.mem_filter, hm, h1, h2, h3, h4, h]
        exact Or.inr hexc
      · simp [ListMonitorsV0.filterByService, List.mem_filter, hm, h1, h2, h3, h4, h]
        exact Or.inr hexc

/-- Witness for C7 at concrete scope-less monitors of both variants. -/
theorem filterByService_excludeAllServices_witness :
    (monitorC7a ∉ ListMonitors.filterByService [monitorC7a] "svcZ" true ∧
     monitorC7a ∈ ListMonitors.filterByService [monitorC7a] "svcZ" false) ∧
    (monitorC7b ∉ ListMonitorsV0.filterByService [monitorC7b] "svcZ" true ∧
     monitorC7b ∈ ListMonitorsV0.filterByService [monitorC7b] "svcZ" false) :=
  ⟨⟨(filterByService_excludeAllServices.1 monitorC7a [monitorC7a] "svcZ"
       (by decide) (Or.inl rfl)).1,
    (filterByService_excludeAllServices.1 monitorC7a [monitorC7a] "svcZ"
       (by decide) (Or.inl rfl)).2 (by simp)⟩,
   ⟨(filterByService_excludeAllServices.2 monitorC7b [monitorC7b] "svcZ"
       (by decide) (Or.inl rfl)).1,
    (filterByService_excludeAllServices.2 monitorC7b [monitorC7b] "svcZ"
       (by decide) (Or.inl rfl)).2 (by decide) (by simp)⟩⟩

/-- Helper: the GraphQL-variant maintainer loop distributes over list
append. -/
theorem GithubGql.setMaintainer_append_gql (api : Github.Api) (u : String)
    (ts1 ts2 : List GithubGql.Team) :
    GithubGql.setMaintainer api u (ts1 ++ ts2) =
      GithubGql.setMaintainer api u ts1 ++ GithubGql.setMaintainer api u ts2 := by
  induction ts1 with
  | nil => simp [GithubGql.setMaintainer]
  | cons t ts ih => simp [GithubGql.setMaintainer, ih]

/-- Helper: the REST-variant maintainer loop distributes over list
append. -/
theorem GithubRest.setMaintainer_append_rest (api : Github.Api) (u : String)
    (ts1 ts2 : List GithubRest.Team) :
    GithubRest.setMaintainer api u (ts1 ++ ts2) =
      GithubRest.setMaintainer api u ts1 ++ GithubRest.setMaintainer api u ts2 := by
  induction ts1 with
  | nil => simp [GithubRest.setMaintainer]
  | cons t ts ih => simp [GithubRest.setMaintainer, ih]

/-- C8: in both maintainer scripts, a non-2xx response for one team
makes `setMaintainer` log an error carrying the response status and
body and continue: the events of the teams before and after it are
exactly those of running the loop on them alone (every remaining team
is still processed), and no exit interrupts the trace. -/
theorem setMaintainer_continues_after_http_error :
    (∀ (api : Github.Api) (username : String) (ts1 ts2 : List GithubGql.Team)
       (t : GithubGql.Team) (r : Github.Response),
      api t.slug = Sum.inr r → r.ok = false →
      GithubGql.setMaintainer api username (ts1 ++ t :: ts2) =
        GithubGql.setMaintainer api username ts1 ++
        ([Github.Ev.put t.slug username, Github.Ev.httpError r.status r.body] ++
         GithubGql.setMaintainer api username ts2)) ∧
    (∀ (api : Github.Api) (username : String) (ts1 ts2 : List GithubRest.Team)
       (t : GithubRest.Team) (r : Github.Response),
      api t.name = Sum.inr r → r.ok = false →
      GithubRest.setMaintainer api username (ts1 ++ t :: ts2) =
        GithubRest.setMaintainer api username ts1 ++
        ([Github.Ev.put t.name username, Github.Ev.httpError r.status r.body] ++
         GithubRest.setMaintainer api username ts2)) := by
  constructor
  · intro api username ts1 ts2 t r hr hok
    rw [show ts1 ++ t :: ts2 = ts1 ++ [t] ++ ts2 by simp]
    rw [GithubGql.setMaintainer_append_gql, GithubGql.setMaintainer_append_gql]
    simp [GithubGql.setMaintainer, hr, hok]
  · intro api username ts1 ts2 t r hr hok
    rw [show ts1 ++ t :: ts2 = ts1 ++ [t] ++ ts2 by simp]
    rw [GithubRest.setMaintainer_append_rest, GithubRest.setMaintainer_append_rest]
    simp [GithubRest.setMaintainer, hr, hok]

/-- Witness for C8: team `alpha` fails with `403 forbidden` between two
successful teams, and both neighbours are still processed. -/
theorem setMaintainer_continues_after_http_error_witness :
    apiC8 "alpha" = Sum.inr { ok := false, status := 403, body := "forbidden", role := "" } ∧
    ({ ok := false, status := 403, body := "forbidden", role := "" } : Github.Response).ok = false ∧
    GithubGql.setMaintainer apiC8 "u" ([teamC8b] ++ teamC8 :: [teamC8b]) =
      GithubGql.setMaintainer apiC8 "u" [teamC8b] ++
      ([Github.Ev.put "alpha" "u", Github.Ev.httpError 403 "forbidden"] ++
       GithubGql.setMaintainer apiC8 "u" [teamC8b]) :=
  ⟨by decide, by decide,
   setMaintainer_continues_after_http_error.1 apiC8 "u" [teamC8b] [teamC8b] teamC8
     { ok := false, status := 403, body := "forbidden", role := "" } (by decide) rfl⟩

/-- C9: with `--dry-run` as the first argument (and org and username
present), both maintainer scripts' `main` only prints team names
(REST variant) or slugs (GraphQL variant): the event trace is exactly
those log lines, and in particular contains no mutating `PUT`
(`setMaintainer` is never reached). -/
theorem dry_run_issues_no_put :
    (∀ (org user : String) (rest : List String) (api : Github.Api)
       (teams : List GithubRest.Team),
      org ≠ "" → user ≠ "" →
      GithubRest.mainRun ("--dry-run" :: org :: user :: rest) api teams =
        some (teams.map fun t => Github.Ev.log t.name) ∧
      ∀ tm u, Github.Ev.put tm u ∉ teams.map fun t => Github.Ev.log t.name) ∧
    (∀ (org user : String) (rest : List String) (api : Github.Api)
       (teams : List GithubGql.Team),
      org ≠ "" → user ≠ "" →
      GithubGql.mainRun ("--dry-run" :: org :: user :: rest) api teams =
        some ((GithubGql.filterTeamsByUser teams user).map fun t => Github.Ev.log t.slug) ∧
      ∀ tm u, Github.Ev.put tm u ∉
        (GithubGql.filterTeamsByUser teams user).map fun t => Github.Ev.log t.slug) := by
  constructor
  · intro org user rest api teams horg huser
    constructor
    · simp [GithubRest.mainRun, GithubRest.parseMainArgs, horg, huser]
    · intro tm u
      simp [List.mem_map]
  · intro org user rest api teams horg huser
    constructor
    · simp [GithubGql.mainRun, GithubRest.parseMainArgs, horg, huser]
    · intro tm u
      simp [List.mem_map]

/-- Witness for C9: a dry run over one team prints its name and issues
no `PUT`. -/
theorem dry_run_issues_no_put_witness :
    ("o" : String) ≠ "" ∧ ("u" : String) ≠ "" ∧
    GithubRest.mainRun ["--dry-run", "o", "u"] (fun _ => Sum.inl "never called") [teamC9] =
      some [Github.Ev.log "Alpha"] ∧
    Github.Ev.put "alpha" "u" ∉ ([teamC9].map fun t => Github.Ev.log t.name) :=
  ⟨by decide, by decide,
   ((dry_run_issues_no_put.1 "o" "u" [] (fun _ => Sum.inl "never called") [teamC9]
      (by decide) (by decide)).1),
   ((dry_run_issues_no_put.1 "o" "u" [] (fun _ => Sum.inl "never called") [teamC9]
      (by decide) (by decide)).2 "alpha" "u")⟩
